import Mathlib

/-!
Shallow embedding of `src/main.py` (crypto-trade-bot) and verification of
its specification claims.

Numeric model: pandas/numpy float arithmetic is embedded as exact rationals
extended with `+inf`, `-inf` and `NaN` (`Val`); operations follow IEEE-754
semantics for the cases the code exercises (`x/0 = ±inf` for `x ≠ 0`,
`0/0 = NaN`, comparisons with `NaN` are false, `NaN` propagates through
arithmetic).  `numpy.sqrt` is taken as an environment parameter.
External calls (Binance client, wall clock) are modelled as explicit
environment records; an exception raised by an external call is an `error`
response.
-/

namespace CryptoBot

/-- A pandas/numpy scalar: a float value, one of the two infinities, or NaN. -/
inductive Val where
  | nan : Val
  | pinf : Val
  | minf : Val
  | fin : ℚ → Val
  deriving DecidableEq, Repr

namespace Val

/-- IEEE addition on extended values. -/
def add : Val → Val → Val
  | nan, _ => nan
  | _, nan => nan
  | pinf, minf => nan
  | minf, pinf => nan
  | pinf, _ => pinf
  | _, pinf => pinf
  | minf, _ => minf
  | _, minf => minf
  | fin a, fin b => fin (a + b)

/-- IEEE negation on extended values. -/
def neg : Val → Val
  | nan => nan
  | pinf => minf
  | minf => pinf
  | fin a => fin (-a)

/-- IEEE subtraction on extended values. -/
def sub (a b : Val) : Val := add a (neg b)

/-- IEEE division on extended values (numpy semantics: `x/0 = ±inf` for
`x ≠ 0`, `0/0 = NaN`). -/
def div : Val → Val → Val
  | nan, _ => nan
  | _, nan => nan
  | pinf, pinf => nan
  | pinf, minf => nan
  | minf, pinf => nan
  | minf, minf => nan
  | pinf, fin b => if b < 0 then minf else pinf
  | minf, fin b => if b < 0 then pinf else minf
  | fin _, pinf => fin 0
  | fin _, minf => fin 0
  | fin a, fin b =>
      if b = 0 then (if a > 0 then pinf else if a < 0 then minf else nan)
      else fin (a / b)

/-- Multiplication by a finite scalar (used for `band * 1.02` etc.). -/
def mulQ : Val → ℚ → Val
  | nan, _ => nan
  | pinf, c => if c > 0 then pinf else if c < 0 then minf else nan
  | minf, c => if c > 0 then minf else if c < 0 then pinf else nan
  | fin a, c => fin (a * c)

/-- IEEE strict less-than as a boolean: any comparison with NaN is false. -/
def ltB : Val → Val → Bool
  | fin a, fin b => decide (a < b)
  | fin _, pinf => true
  | minf, fin _ => true
  | minf, pinf => true
  | _, _ => false

/-- IEEE less-or-equal as a boolean: any comparison with NaN is false. -/
def leB : Val → Val → Bool
  | fin a, fin b => decide (a ≤ b)
  | fin _, pinf => true
  | minf, fin _ => true
  | minf, pinf => true
  | minf, minf => true
  | pinf, pinf => true
  | _, _ => false

end Val

/-! ### Series operations (pandas `diff`, `mask`, `rolling().mean()/std()`) -/

/-- Element `i` of the close column; out-of-range reads are NaN. -/
def closeAt (closes : List Val) (i : ℕ) : Val := closes.getD i Val.nan

/-- `data['close'].diff()`: first element NaN, then successive differences. -/
def delta (closes : List Val) (i : ℕ) : Val :=
  if i = 0 then Val.nan else (closeAt closes i).sub (closeAt closes (i - 1))

/-- `delta.mask(delta < 0, 0)` — gains series.  The mask condition is an
IEEE comparison, so NaN entries are kept as NaN. -/
def gain (closes : List Val) (i : ℕ) : Val :=
  if Val.ltB (delta closes i) (Val.fin 0) then Val.fin 0 else delta closes i

/-- `-delta.mask(delta > 0, 0)` — losses series (magnitudes). -/
def loss (closes : List Val) (i : ℕ) : Val :=
  Val.neg (if Val.ltB (Val.fin 0) (delta closes i) then Val.fin 0
           else delta closes i)

/-- Window of the last `period` values ending at index `i` (most recent
first). -/
def windowVals (f : ℕ → Val) (period i : ℕ) : List Val :=
  (List.range period).map (fun j => f (i - j))

/-- Extract the rationals of a window when every entry is finite. -/
def allFin : List Val → Option (List ℚ)
  | [] => some []
  | Val.fin q :: t => (allFin t).map (q :: ·)
  | _ => none

/-- `series.rolling(window=period).mean()` at index `i`: NaN until a full
window of non-NaN values is available. -/
def rollMean (f : ℕ → Val) (period i : ℕ) : Val :=
  if period = 0 ∨ i + 1 < period then Val.nan
  else match allFin (windowVals f period i) with
    | some qs => Val.fin (qs.sum / (period : ℚ))
    | none => Val.nan

/-- `series.rolling(window=period).std()` at index `i` (pandas default
`ddof = 1`, so a single observation yields NaN).  `sqrt` is the numpy
square-root primitive, taken as a parameter of the model. -/
def rollStd (sqrt : ℚ → ℚ) (f : ℕ → Val) (period i : ℕ) : Val :=
  if period = 0 ∨ i + 1 < period then Val.nan
  else match allFin (windowVals f period i) with
    | some qs =>
        if period = 1 then Val.nan
        else
          let m := qs.sum / (period : ℚ)
          Val.fin (sqrt ((qs.map (fun x => (x - m) ^ 2)).sum / ((period : ℚ) - 1)))
    | none => Val.nan

/-! ### `calculate_rsi` (src/main.py lines 127-138), pointwise -/

/-- `avg_gain = gain.rolling(window=period).mean()`. -/
def avg_gain (closes : List Val) (period i : ℕ) : Val :=
  rollMean (gain closes) period i

/-- `avg_loss = loss.rolling(window=period).mean()`. -/
def avg_loss (closes : List Val) (period i : ℕ) : Val :=
  rollMean (loss closes) period i

/-- `rs = avg_gain / avg_loss`. -/
def rs (closes : List Val) (period i : ℕ) : Val :=
  (avg_gain closes period i).div (avg_loss closes period i)

/-- `rsi = 100 - (100 / (1 + rs))`: element `i` of the series returned by
`calculate_rsi(data, period)`. -/
def calculate_rsi (closes : List Val) (period i : ℕ) : Val :=
  (Val.fin 100).sub ((Val.fin 100).div ((Val.fin 1).add (rs closes period i)))

/-! ### Bollinger bands (src/main.py lines 141-147), pointwise -/

/-- `data['sma'] = data['close'].rolling(window=period).mean()`. -/
def sma (closes : List Val) (period i : ℕ) : Val :=
  rollMean (closeAt closes) period i

/-- `data['std'] = data['close'].rolling(window=period).std()`. -/
def rollingStd (sqrt : ℚ → ℚ) (closes : List Val) (period i : ℕ) : Val :=
  rollStd sqrt (closeAt closes) period i

/-- `data['upper_band'] = data['sma'] + (data['std'] * std_dev)`. -/
def upper_band (sqrt : ℚ → ℚ) (closes : List Val) (period : ℕ) (std_dev : ℚ)
    (i : ℕ) : Val :=
  (sma closes period i).add ((rollingStd sqrt closes period i).mulQ std_dev)

/-- `data['lower_band'] = data['sma'] - (data['std'] * std_dev)`. -/
def lower_band (sqrt : ℚ → ℚ) (closes : List Val) (period : ℕ) (std_dev : ℚ)
    (i : ℕ) : Val :=
  (sma closes period i).sub ((rollingStd sqrt closes period i).mulQ std_dev)

/-! ### DataFrame model (for the frame/side-effect claims)

A pandas DataFrame is a named, ordered collection of columns.  Column
assignment `data[name] = series` replaces the column when it exists and
appends it at the end otherwise — exactly pandas' behaviour. -/

structure DataFrame where
  cols : List (String × List Val)
  deriving DecidableEq, Repr

/-- Read a column. -/
def DataFrame.getCol (df : DataFrame) (name : String) : Option (List Val) :=
  (df.cols.find? (fun c => c.1 = name)).map (fun c => c.2)

/-- Column assignment `df[name] = s`. -/
def DataFrame.setCol (df : DataFrame) (name : String) (s : List Val) : DataFrame :=
  if df.cols.any (fun c => c.1 = name) then
    ⟨df.cols.map (fun c => if c.1 = name then (name, s) else c)⟩
  else ⟨df.cols ++ [(name, s)]⟩

/-- Materialise a pointwise series as a column of length `n`. -/
def seriesOf (f : ℕ → Val) (n : ℕ) : List Val :=
  (List.range n).map f

/-- `calculate_rsi(self, data, period)` as a state transformer on the
DataFrame it receives: the method body only *reads* `data['close']` (no
assignment to `data` occurs in src/main.py lines 127-138), so the state
component of the translation is the unchanged input; the second component
is the returned RSI series. -/
def calculate_rsi_df (df : DataFrame) (period : ℕ) : DataFrame × List Val :=
  let closes := (df.getCol "close").getD []
  (df, seriesOf (calculate_rsi closes period) closes.length)

/-- `calculate_bollinger_bands(self, data, period, std_dev)` as a state
transformer: the method assigns the four columns `sma`, `std`,
`upper_band`, `lower_band` on the DataFrame it receives (in place) and
returns it. -/
def calculate_bollinger_bands (sqrt : ℚ → ℚ) (df : DataFrame) (period : ℕ)
    (std_dev : ℚ) : DataFrame :=
  let closes := (df.getCol "close").getD []
  let n := closes.length
  let smaS := seriesOf (sma closes period) n
  let stdS := seriesOf (rollingStd sqrt closes period) n
  let upperS := seriesOf (upper_band sqrt closes period std_dev) n
  let lowerS := seriesOf (lower_band sqrt closes period std_dev) n
  ((((df.setCol "sma" smaS).setCol "std" stdS).setCol
      "upper_band" upperS).setCol "lower_band" lowerS)

/-! ### Quantity normalization (src/main.py lines 162-167)

The code computes `precision = int(round(-math.log10(step_size)))` and then
`quantity = round(quantity, precision)`.  Exchange step sizes are exact
powers of ten (`0.001`, `0.01`, …); for those `-log10(step)` is the exact
integer exponent, which we compute by `pow10Exp`.  Python's `round`
performs round-half-to-even (banker's rounding), embedded exactly on ℚ. -/

/-- Fuelled search for the exact base-10 exponent of a rational: returns
`some z` when `q = 10 ^ z`, `none` otherwise. -/
def pow10ExpAux : ℕ → ℚ → Option ℤ
  | 0, _ => none
  | fuel + 1, q =>
    if q = 1 then some 0
    else if 10 ≤ q then (pow10ExpAux fuel (q / 10)).map (· + 1)
    else if 0 < q ∧ q < 1 then (pow10ExpAux fuel (q * 10)).map (· - 1)
    else none

/-- Exact base-10 exponent: `pow10Exp q = some z` iff `q = 10 ^ z`. -/
def pow10Exp (q : ℚ) : Option ℤ :=
  pow10ExpAux (q.num.natAbs + q.den + 1) q

/-- Python's `round` to an integer: round half to even. -/
def roundHalfEven (q : ℚ) : ℤ :=
  let f := q.floor
  let r := q - (f : ℚ)
  if r < 1 / 2 then f
  else if r > 1 / 2 then f + 1
  else if f % 2 = 0 then f else f + 1

/-- Python's `round(q, p)`: round half-to-even at `p` decimal places. -/
def roundTo (q : ℚ) (p : ℤ) : ℚ :=
  (roundHalfEven (q * 10 ^ p) : ℚ) / 10 ^ p

/-- Lines 166-167 of src/main.py: `precision = int(round(-math.log10(step_size)))`
then `quantity = round(quantity, precision)`.  For a step size `10 ^ z` the
precision is exactly `-z`; for other step sizes the float-log computation has
no exact counterpart and the model returns `none`. -/
def normalize_quantity (quantity step_size : ℚ) : Option ℚ :=
  (pow10Exp step_size).map (fun z => roundTo quantity (-z))

/-! ### Module imports (src/main.py lines 1-10)

The module imports `time, json, logging, datetime, pandas, numpy,
traceback` and three `binance` modules.  `math` is **not** imported, so
evaluating the name `math` in `execute_buy_order` raises `NameError`. -/

def module_imports : List String :=
  ["time", "json", "logging", "datetime", "pandas", "numpy", "traceback",
   "binance.client", "binance.exceptions", "binance.enums"]

/-- Whether the name `math` is bound in the module namespace. -/
def math_imported : Bool := module_imports.contains "math"

/-! ### Position ledger state (src/main.py lines 71-78) -/

/-- `self.position = {'in_position': False, 'quantity': 0, 'buy_price': 0}`. -/
structure Position where
  in_position : Bool
  quantity : ℚ
  buy_price : ℚ
  deriving DecidableEq, Repr

/-- A record appended to `self.transactions`.  `profit`/`profit_percent`
are present only on SELL records (`none` on BUY). -/
structure Transaction where
  type : String
  timestamp : ℕ
  symbol : String
  price : ℚ
  quantity : ℚ
  value : ℚ
  profit : Option ℚ
  profit_percent : Option ℚ
  deriving DecidableEq, Repr

/-- The mutable trading state of a `CryptoTradeBot` instance: the position
dictionary and the append-only `self.transactions` list. -/
structure BotState where
  position : Position
  transactions : List Transaction
  deriving DecidableEq, Repr

/-- Initial state set in `__init__`: Flat with empty history. -/
def initState : BotState :=
  { position := { in_position := false, quantity := 0, buy_price := 0 },
    transactions := [] }

/-- Configuration fields read by the trading logic (from `config.json` /
`__init__`). -/
structure Config where
  symbol : String
  rsi_period : ℕ
  rsi_overbought : ℚ
  rsi_oversold : ℚ
  bollinger_period : ℕ
  bollinger_std : ℚ
  min_order_value : ℚ
  max_order_value : ℚ
  max_loss_percent : ℚ
  deriving Repr

/-! ### `execute_buy_order` (src/main.py lines 150-206) -/

/-- Responses of the external calls made during one `execute_buy_order`
invocation.  `Except Unit τ` models a call that either returns a value or
raises an exception. -/
structure BuyEnv where
  /-- `client.get_asset_balance(asset='USDT')['free']` as a float. -/
  balance : Except Unit ℚ
  /-- step size of the LOT_SIZE filter from `client.get_symbol_info`;
  `error` covers an API exception or a missing filter. -/
  lot_step : Except Unit ℚ
  /-- whether `client.create_order` succeeds (`false` = it raises). -/
  order_ok : Bool
  /-- `datetime.datetime.now()` for the transaction timestamp. -/
  now : ℕ

/-- The distinct exit points of `execute_buy_order`.  The source returns a
bare `False` at every failure site but logs a distinct message at each, so
the sites are observably distinct. -/
inductive BuyExit where
  | balance_error
  | insufficient_balance
  | symbol_info_error
  | name_error
  | order_too_small
  | order_error
  | success
  deriving DecidableEq, Repr

/-- The boolean the Python function returns at a given exit. -/
def BuyExit.result : BuyExit → Bool
  | .success => true
  | _ => false

/-- `execute_buy_order(self, price)`.  Control flow of lines 150-206: the
body runs under a `try` whose handlers all `return False`.  The precision
computation at line 166 evaluates the unbound name `math` (never imported,
lines 1-10), so when that statement is reached it raises `NameError`,
caught by the blanket handler. -/
def execute_buy_order (cfg : Config) (st : BotState) (price : ℚ)
    (env : BuyEnv) : BuyExit × BotState :=
  match env.balance with
  | .error _ => (.balance_error, st)
  | .ok balance =>
    if balance < cfg.min_order_value then (.insufficient_balance, st)
    else
      let order_value := min balance cfg.max_order_value
      let quantity := order_value / price
      match env.lot_step with
      | .error _ => (.symbol_info_error, st)
      | .ok step_size =>
        if math_imported then
          -- dead branch: what lines 166-167 would compute were `math` bound
          match normalize_quantity quantity step_size with
          | none => (.name_error, st)
          | some q =>
            if q * price < cfg.min_order_value then (.order_too_small, st)
            else if env.order_ok then
              (.success,
               { position := { in_position := true, quantity := q, buy_price := price },
                 transactions := st.transactions ++
                   [{ type := "BUY", timestamp := env.now, symbol := cfg.symbol,
                      price := price, quantity := q, value := q * price,
                      profit := none, profit_percent := none }] })
            else (.order_error, st)
        else (.name_error, st)

/-! ### `execute_sell_order` (src/main.py lines 209-256) -/

/-- External responses for one `execute_sell_order` invocation. -/
structure SellEnv where
  /-- whether `client.create_order` succeeds. -/
  order_ok : Bool
  /-- `datetime.datetime.now()`. -/
  now : ℕ

/-- Exit points of `execute_sell_order`.  `zero_division` is the
`ZeroDivisionError` raised by `profit / buy_value` when the stored
position has zero notional; it is caught by the blanket handler before
any mutation. -/
inductive SellExit where
  | not_in_position
  | order_error
  | zero_division
  | success
  deriving DecidableEq, Repr

/-- The boolean the Python function returns at a given exit. -/
def SellExit.result : SellExit → Bool
  | .success => true
  | _ => false

/-- `execute_sell_order(self, price)`: guard on `in_position`, submit the
order, compute profit, append the SELL record, then reset the position. -/
def execute_sell_order (cfg : Config) (st : BotState) (price : ℚ)
    (env : SellEnv) : SellExit × BotState :=
  if st.position.in_position = false then (.not_in_position, st)
  else if env.order_ok then
    if st.position.quantity * st.position.buy_price = 0 then (.zero_division, st)
    else
      (.success,
       { position := { in_position := false, quantity := 0, buy_price := 0 },
         transactions := st.transactions ++
           [{ type := "SELL", timestamp := env.now, symbol := cfg.symbol,
              price := price, quantity := st.position.quantity,
              value := st.position.quantity * price,
              profit := some (st.position.quantity * price -
                st.position.quantity * st.position.buy_price),
              profit_percent := some ((st.position.quantity * price -
                st.position.quantity * st.position.buy_price) /
                (st.position.quantity * st.position.buy_price) * 100) }] })
  else (.order_error, st)

/-! ### Trading decision and cycle (src/main.py lines 268-313) -/

/-- The four possible outcomes of the `if`/`elif` chain at lines 295-310. -/
inductive Decision where
  | ENTER
  | EXIT_PROFIT
  | EXIT_STOPLOSS
  | HOLD
  deriving DecidableEq, Repr

/-- Line 295: `not in_position and latest['rsi'] < rsi_oversold and
current_price <= latest['lower_band'] * 1.02`. -/
def enter_condition (cfg : Config) (pos : Position) (rsi lower : Val)
    (price : ℚ) : Bool :=
  !pos.in_position && Val.ltB rsi (Val.fin cfg.rsi_oversold)
    && Val.leB (Val.fin price) (lower.mulQ (102 / 100))

/-- Line 300: `latest['rsi'] > rsi_overbought or
current_price >= latest['upper_band'] * 0.98`. -/
def exit_profit_condition (cfg : Config) (rsi upper : Val) (price : ℚ) : Bool :=
  Val.ltB (Val.fin cfg.rsi_overbought) rsi
    || Val.leB (upper.mulQ (98 / 100)) (Val.fin price)

/-- Line 308: `loss_percent < -max_loss_percent` with
`loss_percent = (price - buy_price) / buy_price * 100`. -/
def stoploss_condition (cfg : Config) (pos : Position) (price : ℚ) : Bool :=
  (price - pos.buy_price) / pos.buy_price * 100 < -cfg.max_loss_percent

/-- The branch structure of lines 295-310 as a decision: which of the
four actions the `if`/`elif` chain selects. -/
def decide_signal (cfg : Config) (pos : Position) (rsi upper lower : Val)
    (price : ℚ) : Decision :=
  if enter_condition cfg pos rsi lower price then .ENTER
  else if pos.in_position && exit_profit_condition cfg rsi upper price then
    .EXIT_PROFIT
  else if pos.in_position then
    if stoploss_condition cfg pos price then .EXIT_STOPLOSS else .HOLD
  else .HOLD

/-- External responses for one `analyze_and_trade` cycle. -/
structure CycleEnv where
  /-- close column of `get_historical_data()`; `none` when the fetch
  failed (the method returned `None`). -/
  closes : Option (List ℚ)
  /-- `client.get_symbol_ticker` price; `none` when the call raises. -/
  price : Option ℚ
  /-- the numpy square-root primitive used by the rolling std. -/
  sqrt : ℚ → ℚ
  buyEnv : BuyEnv
  sellEnv : SellEnv

/-- Observable outcome of one `analyze_and_trade` cycle. -/
structure CycleResult where
  /-- the decision reached, or `none` when the cycle aborted before the
  signal logic (no data, short data, or ticker failure). -/
  decision : Option Decision
  state : BotState
  buy_exit : Option BuyExit
  sell_exit : Option SellExit
  /-- whether `save_transactions()` ran this cycle (line 313). -/
  persisted : Bool

/-- `analyze_and_trade(self)`: fetch data, compute the indicators on the
last row, fetch the current price, run the signal chain, dispatch to the
order methods, and finally `save_transactions()` (line 313) — the save
runs on every path that reaches the signal logic, including HOLD and
failed orders; the early `return`s at lines 273 and 288 skip it. -/
def analyze_and_trade (cfg : Config) (st : BotState) (env : CycleEnv) :
    CycleResult :=
  match env.closes with
  | none => ⟨none, st, none, none, false⟩
  | some closes =>
    if closes.length < cfg.bollinger_period then ⟨none, st, none, none, false⟩
    else
      match env.price with
      | none => ⟨none, st, none, none, false⟩
      | some price =>
        match decide_signal cfg st.position
          (calculate_rsi (closes.map Val.fin) cfg.rsi_period (closes.length - 1))
          (upper_band env.sqrt (closes.map Val.fin) cfg.bollinger_period
            cfg.bollinger_std (closes.length - 1))
          (lower_band env.sqrt (closes.map Val.fin) cfg.bollinger_period
            cfg.bollinger_std (closes.length - 1)) price with
        | .ENTER =>
          ⟨some .ENTER, (execute_buy_order cfg st price env.buyEnv).2,
           some (execute_buy_order cfg st price env.buyEnv).1, none, true⟩
        | .EXIT_PROFIT =>
          ⟨some .EXIT_PROFIT, (execute_sell_order cfg st price env.sellEnv).2,
           none, some (execute_sell_order cfg st price env.sellEnv).1, true⟩
        | .EXIT_STOPLOSS =>
          ⟨some .EXIT_STOPLOSS, (execute_sell_order cfg st price env.sellEnv).2,
           none, some (execute_sell_order cfg st price env.sellEnv).1, true⟩
        | .HOLD => ⟨some .HOLD, st, none, none, true⟩

/-- States reachable from the constructor's initial state by running
trading cycles (each with arbitrary external responses). -/
inductive Reachable (cfg : Config) : BotState → Prop where
  | init : Reachable cfg initState
  | step (st : BotState) (env : CycleEnv) : Reachable cfg st →
      Reachable cfg (analyze_and_trade cfg st env).state

/-- Number of BUY records in a transaction list. -/
def countBuys (txs : List Transaction) : ℕ :=
  (txs.filter (fun t => t.type = "BUY")).length

/-- Number of SELL records in a transaction list. -/
def countSells (txs : List Transaction) : ℕ :=
  (txs.filter (fun t => t.type = "SELL")).length

/-- The most recent unmatched BUY: the last record, when it is a BUY (any
later SELL closes the position opened by the last BUY, so an unmatched
BUY can only sit at the end of the ledger). -/
def lastUnmatchedBuy (txs : List Transaction) : Option Transaction :=
  match txs.getLast? with
  | some t => if t.type = "BUY" then some t else none
  | none => none

/-- The position/ledger coupling invariant of the spec (§3): Long iff
one more BUY than SELL, and a Long position carries the quantity and
price of the most recent unmatched BUY. -/
def ledgerInvariant (st : BotState) : Prop :=
  (st.position.in_position = true ↔
    countBuys st.transactions = countSells st.transactions + 1) ∧
  (st.position.in_position = true →
    ∃ t, lastUnmatchedBuy st.transactions = some t ∧
      t.quantity = st.position.quantity ∧ t.price = st.position.buy_price)

/-! ## Helper lemmas -/

set_option maxRecDepth 8000

/-- `math` is not among the module's imports. -/
theorem math_imported_false : math_imported = false := by decide

/-- Every call to `execute_buy_order` returns `False` and leaves the state
untouched: all paths that do not reach the order submission return the
input state, and the path that would submit first evaluates the unbound
name `math` and raises `NameError`. -/
theorem execute_buy_order_noop (cfg : Config) (st : BotState) (price : ℚ)
    (env : BuyEnv) :
    (execute_buy_order cfg st price env).1.result = false ∧
    (execute_buy_order cfg st price env).2 = st := by
  unfold execute_buy_order
  cases env.balance with
  | error e => exact ⟨rfl, rfl⟩
  | ok b =>
    by_cases hb : b < cfg.min_order_value
    · simp [hb, BuyExit.result]
    · cases env.lot_step with
      | error e => simp [hb, BuyExit.result]
      | ok s => simp [hb, math_imported_false, BuyExit.result]

/-- `execute_sell_order` from a Flat state is the guarded early return. -/
theorem execute_sell_order_flat (cfg : Config) (st : BotState) (price : ℚ)
    (env : SellEnv) (h : st.position.in_position = false) :
    execute_sell_order cfg st price env = (.not_in_position, st) := by
  unfold execute_sell_order
  simp [h]

/-- On a failed order submission, `execute_sell_order` returns a failure
and leaves the state untouched. -/
theorem execute_sell_order_gateway_fail (cfg : Config) (st : BotState)
    (price : ℚ) (env : SellEnv) (h : env.order_ok = false) :
    (execute_sell_order cfg st price env).1.result = false ∧
    (execute_sell_order cfg st price env).2 = st := by
  unfold execute_sell_order
  by_cases hp : st.position.in_position = false
  · simp [hp, SellExit.result]
  · simp [hp, h, SellExit.result]

/-! ## Claims -/

/-- Claim C1: for every price argument and every environment response
(including a balance at or above `min_order_value` and a valid LOT_SIZE
filter), `execute_buy_order` returns `False` and leaves the position and
the transactions list unchanged — the precision computation references
`math.log10` but the module never imports `math`, so the call raises
`NameError`, converted to a `False` return by the blanket handler before
any order submission or ledger mutation; no BUY transaction is appended
and the position never becomes Long. -/
theorem buy_order_always_fails_unchanged (cfg : Config) (st : BotState)
    (price : ℚ) (env : BuyEnv) :
    (execute_buy_order cfg st price env).1.result = false ∧
    (execute_buy_order cfg st price env).2.position = st.position ∧
    (execute_buy_order cfg st price env).2.transactions = st.transactions := by
  obtain ⟨h1, h2⟩ := execute_buy_order_noop cfg st price env
  exact ⟨h1, by rw [h2], by rw [h2]⟩

/-! ### Concrete fixtures for witnesses and counterexamples -/

/-- A representative configuration (thresholds as in `config.json`
defaults discussed in the spec scenarios). -/
def cfg0 : Config :=
  { symbol := "BTCUSDT", rsi_period := 2, rsi_overbought := 70,
    rsi_oversold := 30, bollinger_period := 2, bollinger_std := 2,
    min_order_value := 10, max_order_value := 100, max_loss_percent := 5 }

/-- Buy environment: ample balance, valid LOT_SIZE step `0.001`, order
submission succeeding. -/
def benv0 : BuyEnv :=
  { balance := .ok 50, lot_step := .ok (1 / 1000), order_ok := true, now := 0 }

/-- Buy environment whose order submission fails. -/
def benvFail : BuyEnv :=
  { balance := .ok 50, lot_step := .ok (1 / 1000), order_ok := false, now := 0 }

/-- Sell environment: order submission succeeding. -/
def senv0 : SellEnv := { order_ok := true, now := 0 }

/-- Sell environment whose order submission fails. -/
def senvFail : SellEnv := { order_ok := false, now := 0 }

/-- A Long state (as the in-memory dict would look after a fill). -/
def stLong0 : BotState :=
  { position := { in_position := true, quantity := 1, buy_price := 100 },
    transactions := [] }

/-- Counterexample to claim C4: called on a Long position with ample
balance, `execute_buy_order` does not fail through any already-Long guard
— no such guard exists in the code.  It fails with the `NameError` from
the precision computation, exactly as it does on a Flat position with the
same environment: the outcome is independent of the position. -/
theorem buy_when_long_fails_with_name_error :
    (execute_buy_order cfg0 stLong0 10 benv0).1 = BuyExit.name_error ∧
    (execute_buy_order cfg0 initState 10 benv0).1 = BuyExit.name_error := by
  with_unfolding_all decide

/-- Claim C4 (amended): `execute_sell_order` on a Flat position fails via
its explicit `in_position` guard, appending no transaction and changing
no state.  `execute_buy_order` has no already-Long guard; called on a
Long position it still returns `False` with the state unchanged, but only
because every call fails at the `NameError` — not because of an
`InvalidTransition` check. -/
theorem entry_exit_guards (cfg : Config) (st : BotState) (price : ℚ)
    (benv : BuyEnv) (senv : SellEnv) :
    (st.position.in_position = true →
      (execute_buy_order cfg st price benv).1.result = false ∧
      (execute_buy_order cfg st price benv).2 = st) ∧
    (st.position.in_position = false →
      execute_sell_order cfg st price senv = (.not_in_position, st)) := by
  refine ⟨fun _ => execute_buy_order_noop cfg st price benv, ?_⟩
  intro h
  exact execute_sell_order_flat cfg st price senv h

/-- Witness for `entry_exit_guards` at concrete inputs: a Long state for
the entry half and the initial Flat state for the exit half. -/
theorem entry_exit_guards_witness :
    (execute_buy_order cfg0 stLong0 10 benv0).2 = stLong0 ∧
    execute_sell_order cfg0 initState 10 senv0 = (.not_in_position, initState) :=
  ⟨((entry_exit_guards cfg0 stLong0 10 benv0 senv0).1 rfl).2,
   (entry_exit_guards cfg0 initState 10 benv0 senv0).2 rfl⟩

/-- Claim C6: when the exchange order submission fails, both
`execute_buy_order` and `execute_sell_order` return a failure result and
perform no ledger mutation: position and transaction list after the call
are exactly what they were before. -/
theorem gateway_failure_no_mutation (cfg : Config) (st : BotState) (price : ℚ)
    (benv : BuyEnv) (senv : SellEnv)
    (hb : benv.order_ok = false) (hs : senv.order_ok = false) :
    ((execute_buy_order cfg st price benv).1.result = false ∧
     (execute_buy_order cfg st price benv).2 = st) ∧
    ((execute_sell_order cfg st price senv).1.result = false ∧
     (execute_sell_order cfg st price senv).2 = st) :=
  ⟨execute_buy_order_noop cfg st price benv,
   execute_sell_order_gateway_fail cfg st price senv hs⟩

/-- Witness for `gateway_failure_no_mutation`: a failing gateway on a
Long state. -/
theorem gateway_failure_no_mutation_witness :
    benvFail.order_ok = false ∧ senvFail.order_ok = false ∧
    (execute_sell_order cfg0 stLong0 10 senvFail).2 = stLong0 :=
  ⟨rfl, rfl,
   (gateway_failure_no_mutation cfg0 stLong0 10 benvFail senvFail rfl rfl).2.2⟩

/-- Claim C8: on a Long position, whenever `rsi > rsi_overbought` or
`price >= upper_band * 0.98`, the decision is EXIT_PROFIT — even when the
stop-loss condition holds simultaneously (the hypothesis places no
restriction on it); and the stop-loss branch decides only when the
profit-exit condition is false. -/
theorem profit_exit_precedes_stoploss (cfg : Config) (pos : Position)
    (rsi upper lower : Val) (price : ℚ) :
    (pos.in_position = true → exit_profit_condition cfg rsi upper price = true →
      decide_signal cfg pos rsi upper lower price = .EXIT_PROFIT) ∧
    (decide_signal cfg pos rsi upper lower price = .EXIT_STOPLOSS →
      exit_profit_condition cfg rsi upper price = false) := by
  constructor
  · intro hp hc
    unfold decide_signal enter_condition
    simp [hp, hc]
  · intro h
    unfold decide_signal at h
    by_cases he : enter_condition cfg pos rsi lower price
    · simp [he] at h
    · by_cases hpc : pos.in_position && exit_profit_condition cfg rsi upper price
      · simp [he, hpc] at h
      · cases hx : exit_profit_condition cfg rsi upper price
        · rfl
        · cases hpos : pos.in_position
          · simp [he, hpos] at h
          · rw [hpos, hx] at hpc
            simp at hpc

/-- Witness for `profit_exit_precedes_stoploss`: a Long position bought
at 100 with current price 50 (a 50% loss, far past the 5% stop-loss
threshold) and RSI 75 above the 70 overbought threshold still decides
EXIT_PROFIT; and a concrete EXIT_STOPLOSS decision has a false
profit-exit condition. -/
theorem profit_exit_precedes_stoploss_witness :
    (stoploss_condition cfg0 { in_position := true, quantity := 1, buy_price := 100 } 50 = true ∧
      decide_signal cfg0 { in_position := true, quantity := 1, buy_price := 100 }
        (Val.fin 75) (Val.fin 200) (Val.fin 90) 50 = .EXIT_PROFIT) ∧
    exit_profit_condition cfg0 (Val.fin 10) (Val.fin 1000) 50 = false :=
  ⟨⟨by with_unfolding_all decide,
    (profit_exit_precedes_stoploss cfg0
      { in_position := true, quantity := 1, buy_price := 100 }
      (Val.fin 75) (Val.fin 200) (Val.fin 90) 50).1 rfl
      (by with_unfolding_all decide)⟩,
   (profit_exit_precedes_stoploss cfg0
      { in_position := true, quantity := 1, buy_price := 100 }
      (Val.fin 10) (Val.fin 1000) (Val.fin 0) 50).2
      (by with_unfolding_all decide)⟩

/-! ### The ledger invariant (claim C7) -/

/-- Appending a SELL record leaves the BUY count unchanged. -/
theorem countBuys_append_sell (txs : List Transaction) (t : Transaction)
    (h : t.type = "SELL") : countBuys (txs ++ [t]) = countBuys txs := by
  unfold countBuys
  rw [List.filter_append]
  have : List.filter (fun u => decide (u.type = "BUY")) [t] = [] := by
    simp [List.filter, h]
  rw [this, List.append_nil]

/-- Appending a SELL record increments the SELL count. -/
theorem countSells_append_sell (txs : List Transaction) (t : Transaction)
    (h : t.type = "SELL") : countSells (txs ++ [t]) = countSells txs + 1 := by
  unfold countSells
  rw [List.filter_append]
  have : List.filter (fun u => decide (u.type = "SELL")) [t] = [t] := by
    simp [List.filter, h]
  rw [this, List.length_append, List.length_singleton]

/-- `execute_sell_order` preserves the ledger invariant. -/
theorem execute_sell_order_preserves_invariant (cfg : Config) (st : BotState)
    (price : ℚ) (env : SellEnv) (h : ledgerInvariant st) :
    ledgerInvariant (execute_sell_order cfg st price env).2 := by
  cases hin : st.position.in_position with
  | false =>
    rw [execute_sell_order_flat cfg st price env hin]
    exact h
  | true =>
    unfold execute_sell_order
    rw [hin]
    cases ho : env.order_ok with
    | false => simpa using h
    | true =>
      by_cases hz : st.position.quantity * st.position.buy_price = 0
      · simpa [hz] using h
      · have hcount : countBuys st.transactions = countSells st.transactions + 1 :=
          h.1.mp hin
        rw [if_neg (show ¬(true = false) by simp), if_pos rfl, if_neg hz]
        refine ⟨⟨fun hf => by simp at hf, fun hc => ?_⟩, fun hf => by simp at hf⟩
        rw [countBuys_append_sell _ _ rfl, countSells_append_sell _ _ rfl] at hc
        omega

/-- One trading cycle preserves the ledger invariant: the buy path never
mutates, the sell path preserves it, and every other path leaves the
state unchanged. -/
theorem analyze_and_trade_preserves_invariant (cfg : Config) (st : BotState)
    (env : CycleEnv) (h : ledgerInvariant st) :
    ledgerInvariant (analyze_and_trade cfg st env).state := by
  unfold analyze_and_trade
  cases env.closes with
  | none => exact h
  | some closes =>
    by_cases hl : closes.length < cfg.bollinger_period
    · simpa [hl] using h
    · cases env.price with
      | none => simpa [hl] using h
      | some price =>
        simp only [hl, if_false]
        cases decide_signal cfg st.position
            (calculate_rsi (closes.map Val.fin) cfg.rsi_period (closes.length - 1))
            (upper_band env.sqrt (closes.map Val.fin) cfg.bollinger_period
              cfg.bollinger_std (closes.length - 1))
            (lower_band env.sqrt (closes.map Val.fin) cfg.bollinger_period
              cfg.bollinger_std (closes.length - 1)) price with
        | ENTER =>
          have := (execute_buy_order_noop cfg st price env.buyEnv).2
          simpa [this] using h
        | EXIT_PROFIT =>
          exact execute_sell_order_preserves_invariant cfg st price env.sellEnv h
        | EXIT_STOPLOSS =>
          exact execute_sell_order_preserves_invariant cfg st price env.sellEnv h
        | HOLD => exact h

/-- Claim C7: in every state reachable from the initial state (Flat
position, empty transaction list) by trading cycles, the position is Long
iff the number of BUY transactions exceeds the number of SELL
transactions by exactly one, and a Long position carries the quantity and
price of the most recent unmatched BUY. -/
theorem reachable_ledger_invariant (cfg : Config) (st : BotState)
    (h : Reachable cfg st) : ledgerInvariant st := by
  induction h with
  | init =>
    constructor
    · constructor
      · intro hfalse
        exact absurd hfalse (by simp [initState])
      · intro hc
        exact absurd hc (by simp [initState, countBuys, countSells])
    · intro hfalse
      exact absurd hfalse (by simp [initState])
  | step st' env _ ih =>
    exact analyze_and_trade_preserves_invariant cfg st' env ih

/-- Witness for `reachable_ledger_invariant`: the initial state itself. -/
theorem reachable_ledger_invariant_witness :
    Reachable cfg0 initState ∧ ledgerInvariant initState :=
  ⟨Reachable.init, reachable_ledger_invariant cfg0 initState Reachable.init⟩

/-! ### Scenario D: Flat position, balance below `min_order_value` (claim C5) -/

/-- With a balance response below `min_order_value`, `execute_buy_order`
is the guarded early return of line 156. -/
theorem execute_buy_order_insufficient (cfg : Config) (st : BotState)
    (price : ℚ) (env : BuyEnv) (b : ℚ)
    (hb : env.balance = .ok b) (hlt : b < cfg.min_order_value) :
    execute_buy_order cfg st price env = (.insufficient_balance, st) := by
  unfold execute_buy_order
  rw [hb]
  simp [hlt]

/-- On a Flat position the signal chain can only decide ENTER or HOLD
(both exit branches require `in_position`). -/
theorem decide_signal_flat (cfg : Config) (pos : Position)
    (rsi upper lower : Val) (price : ℚ) (h : pos.in_position = false) :
    decide_signal cfg pos rsi upper lower price = .ENTER ∨
    decide_signal cfg pos rsi upper lower price = .HOLD := by
  unfold decide_signal
  split
  · exact Or.inl rfl
  · rw [h]
    simp

/-- Concrete cycle environment for Scenario D: closes `3, 1, 1` (RSI 0,
far oversold), current price `1` on the lower band, balance 5 against
`min_order_value` 10.  The final bollinger window is `[1, 1]`, whose
sample variance is exactly `0`, so the square-root primitive is only
evaluated at `0` during this cycle — where the supplied model function
returns `0`, the exact value of `numpy.sqrt(0.0)`.  The whole trace
(RSI `0 < 30`, `lower_band = 1`, `price ≤ lower_band * 1.02`, ENTER,
balance check fails) is therefore exactly the real program's execution
at this input. -/
def cycleEnvD : CycleEnv :=
  { closes := some [3, 1, 1], price := some 1, sqrt := fun q => q,
    buyEnv := { balance := .ok 5, lot_step := .ok (1 / 1000),
                order_ok := true, now := 0 },
    sellEnv := senv0 }

/-- Counterexample to claim C5: in the concrete Scenario-D cycle
(a real execution — every indicator value, including the zero rolling
std, is exact at this input) the entry does return `InsufficientBalance`
and the ledger is unchanged, but a persist **is** triggered —
`save_transactions()` at line 313 runs unconditionally at the end of
every completed analysis cycle. -/
theorem scenarioD_persist_is_triggered :
    (analyze_and_trade cfg0 initState cycleEnvD).buy_exit =
      some BuyExit.insufficient_balance ∧
    (analyze_and_trade cfg0 initState cycleEnvD).state = initState ∧
    (analyze_and_trade cfg0 initState cycleEnvD).persisted = true := by
  with_unfolding_all decide

/-- Claim C5 (amended): for every cycle in which the position is Flat and
the balance response is below `min_order_value`, the entry execution (if
the cycle reaches one) returns the `InsufficientBalance` failure and the
ledger (position and transaction list) is unchanged — but whenever the
cycle reaches a decision, the transaction file **is** rewritten (with the
unchanged list): `save_transactions` runs after every completed analysis. -/
theorem flat_insufficient_balance_cycle (cfg : Config) (st : BotState)
    (env : CycleEnv) (b : ℚ)
    (hflat : st.position.in_position = false)
    (hb : env.buyEnv.balance = .ok b) (hlt : b < cfg.min_order_value) :
    (analyze_and_trade cfg st env).state = st ∧
    (∀ e, (analyze_and_trade cfg st env).buy_exit = some e →
      e = .insufficient_balance) ∧
    ((analyze_and_trade cfg st env).decision ≠ none →
      (analyze_and_trade cfg st env).persisted = true) := by
  unfold analyze_and_trade
  split
  · refine ⟨rfl, ?_, ?_⟩
    · intro e he
      cases he
    · intro hd
      exact absurd rfl hd
  · split
    · refine ⟨rfl, ?_, ?_⟩
      · intro e he
        cases he
      · intro hd
        exact absurd rfl hd
    · split
      · refine ⟨rfl, ?_, ?_⟩
        · intro e he
          cases he
        · intro hd
          exact absurd rfl hd
      · rename_i price heq
        split
        · rw [execute_buy_order_insufficient cfg st price env.buyEnv b hb hlt]
          refine ⟨rfl, ?_, fun _ => rfl⟩
          intro e he
          cases he
          rfl
        · rw [execute_sell_order_flat cfg st price env.sellEnv hflat]
          refine ⟨rfl, ?_, fun _ => rfl⟩
          intro e he
          cases he
        · rw [execute_sell_order_flat cfg st price env.sellEnv hflat]
          refine ⟨rfl, ?_, fun _ => rfl⟩
          intro e he
          cases he
        · refine ⟨rfl, ?_, fun _ => rfl⟩
          intro e he
          cases he

/-- Witness for `flat_insufficient_balance_cycle`: the Scenario-D fixture. -/
theorem flat_insufficient_balance_cycle_witness :
    initState.position.in_position = false ∧
    (5 : ℚ) < cfg0.min_order_value ∧
    (analyze_and_trade cfg0 initState cycleEnvD).state = initState :=
  ⟨rfl, by with_unfolding_all decide,
   (flat_insufficient_balance_cycle cfg0 initState cycleEnvD 5 rfl rfl
     (by with_unfolding_all decide)).1⟩

/-! ### The quantity normalization rounds to nearest, not down (claim C2) -/

/-- Claim C2: the normalization at lines 166-167 does **not** round down.
Python's `round` rounds to the nearest multiple (ties to even): for
desired quantity `0.0019` and step size `0.001` it produces `0.002`,
which exceeds the input quantity and differs from the floor multiple
`0.001` the claim requires.  Moreover, at runtime the computation is
never reached at all: every `execute_buy_order` call fails with the
`NameError` from the missing `math` import first. -/
theorem normalize_quantity_rounds_to_nearest :
    normalize_quantity (19 / 10000) (1 / 1000) = some (1 / 500) ∧
    ¬((1 : ℚ) / 500 ≤ 19 / 10000) ∧
    (((19 : ℚ) / 10000 / (1 / 1000)).floor : ℚ) * (1 / 1000) = 1 / 1000 ∧
    (1 : ℚ) / 500 ≠ 1 / 1000 ∧
    (execute_buy_order cfg0 initState 10 benv0).1 = BuyExit.name_error := by
  with_unfolding_all decide

/-! ### RSI = 100 via infinity propagation (claim C3) -/

/-- Counterexample to claim C3's mechanism: on closes `1, 2, 3` with
period 2, the rolling average loss at index 2 is zero and the RSI is
exactly 100 — but the intermediate `rs = avg_gain / avg_loss` is `+inf`:
the division-by-zero edge case is resolved by IEEE infinity propagation,
not by an explicit branch in `calculate_rsi`. -/
theorem rsi_inf_propagation :
    avg_loss [Val.fin 1, Val.fin 2, Val.fin 3] 2 2 = Val.fin 0 ∧
    rs [Val.fin 1, Val.fin 2, Val.fin 3] 2 2 = Val.pinf ∧
    calculate_rsi [Val.fin 1, Val.fin 2, Val.fin 3] 2 2 = Val.fin 100 := by
  with_unfolding_all decide

/-- Claim C3 (amended): for every close series and period, at every index
where the rolling average loss is zero and the RSI value is defined (a
finite number), that value equals exactly 100 — obtained through the
IEEE semantics of the division (`rs` becomes `+inf` and
`100 - 100/(1+inf) = 100`), not through an explicit edge-case branch. -/
theorem rsi_hundred_when_avg_loss_zero (closes : List Val) (period i : ℕ)
    (hl : avg_loss closes period i = Val.fin 0) (r : ℚ)
    (hr : calculate_rsi closes period i = Val.fin r) : r = 100 := by
  unfold calculate_rsi rs at hr
  rw [hl] at hr
  cases hg : avg_gain closes period i with
  | nan =>
    rw [hg] at hr
    simp [Val.div, Val.add, Val.sub, Val.neg] at hr
  | pinf =>
    rw [hg] at hr
    simp [Val.div, Val.add, Val.sub, Val.neg] at hr
    linarith [hr]
  | minf =>
    rw [hg] at hr
    simp [Val.div, Val.add, Val.sub, Val.neg] at hr
    linarith [hr]
  | fin g =>
    rw [hg] at hr
    rcases lt_trichotomy g 0 with hgl | hge | hgg
    · simp [Val.div, Val.add, Val.sub, Val.neg, hgl, not_lt_of_lt hgl,
        asymm hgl] at hr
      linarith [hr]
    · subst hge
      simp [Val.div, Val.add, Val.sub, Val.neg] at hr
    · simp [Val.div, Val.add, Val.sub, Val.neg, hgg, not_lt_of_lt hgg,
        asymm hgg] at hr
      linarith [hr]

/-- Witness for `rsi_hundred_when_avg_loss_zero`: the series `1, 2, 3`
at period 2, index 2. -/
theorem rsi_hundred_when_avg_loss_zero_witness :
    avg_loss [Val.fin 1, Val.fin 2, Val.fin 3] 2 2 = Val.fin 0 ∧
    (100 : ℚ) = 100 :=
  ⟨by with_unfolding_all decide,
   rsi_hundred_when_avg_loss_zero [Val.fin 1, Val.fin 2, Val.fin 3] 2 2
     (by with_unfolding_all decide) 100 (by with_unfolding_all decide)⟩

/-! ### Indicator side effects on the DataFrame (claim C9) -/

/-- Replacing the `n` column leaves lookups of any other column alone. -/
theorem find_replace_ne (l : List (String × List Val)) (n m : String)
    (s : List Val) (h : m ≠ n) :
    (l.map (fun c => if c.1 = n then (n, s) else c)).find?
        (fun c => c.1 = m) = l.find? (fun c => c.1 = m) := by
  induction l with
  | nil => rfl
  | cons c t ih =>
    by_cases hc : c.1 = n
    · rw [List.map_cons, if_pos hc]
      rw [List.find?_cons_of_neg _ (by simp [Ne.symm h]),
          List.find?_cons_of_neg _ (by simp [hc, Ne.symm h])]
      exact ih
    · rw [List.map_cons, if_neg hc]
      by_cases hm : c.1 = m
      · rw [List.find?_cons_of_pos _ (by simp [hm]),
            List.find?_cons_of_pos _ (by simp [hm])]
      · rw [List.find?_cons_of_neg _ (by simp [hm]),
            List.find?_cons_of_neg _ (by simp [hm])]
        exact ih

/-- Appending a fresh `n` column leaves lookups of any other column alone. -/
theorem find_append_ne (l : List (String × List Val)) (n m : String)
    (s : List Val) (h : m ≠ n) :
    (l ++ [(n, s)]).find? (fun c => c.1 = m) = l.find? (fun c => c.1 = m) := by
  induction l with
  | nil =>
    rw [List.nil_append]
    rw [List.find?_cons_of_neg _ (by simp [Ne.symm h])]
  | cons c t ih =>
    rw [List.cons_append]
    by_cases hm : c.1 = m
    · rw [List.find?_cons_of_pos _ (by simp [hm]),
          List.find?_cons_of_pos _ (by simp [hm])]
    · rw [List.find?_cons_of_neg _ (by simp [hm]),
          List.find?_cons_of_neg _ (by simp [hm])]
      exact ih

/-- `setCol` on column `n` does not change `getCol m` for `m ≠ n`. -/
theorem getCol_setCol_ne (df : DataFrame) (n m : String) (s : List Val)
    (h : m ≠ n) : (df.setCol n s).getCol m = df.getCol m := by
  unfold DataFrame.setCol DataFrame.getCol
  by_cases ha : df.cols.any (fun c => c.1 = n)
  · rw [if_pos ha]
    show ((df.cols.map (fun c => if c.1 = n then (n, s) else c)).find?
      (fun c => c.1 = m)).map (fun c => c.2) = _
    rw [find_replace_ne df.cols n m s h]
  · rw [if_neg ha]
    show ((df.cols ++ [(n, s)]).find? (fun c => c.1 = m)).map
      (fun c => c.2) = _
    rw [find_append_ne df.cols n m s h]

/-- A one-column frame holding only a close series. -/
def df0 : DataFrame := ⟨[("close", [Val.fin 1, Val.fin 2])]⟩

/-- Counterexample to claim C9: `calculate_bollinger_bands` does **not**
leave its input unchanged — the call adds the columns `sma`, `std`,
`upper_band` and `lower_band` to the DataFrame passed in. -/
theorem bollinger_mutates_input :
    calculate_bollinger_bands (fun q => q) df0 2 2 ≠ df0 ∧
    (calculate_bollinger_bands (fun q => q) df0 2 2).getCol "sma" ≠ none := by
  with_unfolding_all decide

/-- Claim C9 (amended): `calculate_rsi` leaves the data passed to it
unchanged (it only reads `data['close']`); `calculate_bollinger_bands`
writes the four columns `sma`, `std`, `upper_band`, `lower_band` in place
on its input and leaves every other column — in particular `close` —
unchanged. -/
theorem indicator_frame_effects (sqrt : ℚ → ℚ) (df : DataFrame)
    (period : ℕ) (std_dev : ℚ) (name : String)
    (h1 : name ≠ "sma") (h2 : name ≠ "std")
    (h3 : name ≠ "upper_band") (h4 : name ≠ "lower_band") :
    (calculate_rsi_df df period).1 = df ∧
    (calculate_bollinger_bands sqrt df period std_dev).getCol name =
      df.getCol name := by
  refine ⟨rfl, ?_⟩
  unfold calculate_bollinger_bands
  rw [getCol_setCol_ne _ _ _ _ h4, getCol_setCol_ne _ _ _ _ h3,
      getCol_setCol_ne _ _ _ _ h2, getCol_setCol_ne _ _ _ _ h1]

/-- Witness for `indicator_frame_effects`: the `close` column of the
concrete frame survives the bollinger call. -/
theorem indicator_frame_effects_witness :
    (calculate_rsi_df df0 2).1 = df0 ∧
    (calculate_bollinger_bands (fun q => q) df0 2 2).getCol "close" =
      df0.getCol "close" :=
  ⟨(indicator_frame_effects (fun q => q) df0 2 2 "close" (by decide)
      (by decide) (by decide) (by decide)).1,
   (indicator_frame_effects (fun q => q) df0 2 2 "close" (by decide)
      (by decide) (by decide) (by decide)).2⟩

/-! ### RSI range (claim C10) -/

/-- A finite entry of an `allFin` extraction really occurs in the list. -/
theorem allFin_mem {l : List Val} {qs : List ℚ} (h : allFin l = some qs)
    {q : ℚ} (hq : q ∈ qs) : Val.fin q ∈ l := by
  induction l generalizing qs with
  | nil =>
    unfold allFin at h
    cases h
    cases hq
  | cons v t ih =>
    cases v with
    | nan => unfold allFin at h; cases h
    | pinf => unfold allFin at h; cases h
    | minf => unfold allFin at h; cases h
    | fin a =>
      unfold allFin at h
      cases ha : allFin t with
      | none => rw [ha] at h; cases h
      | some qs' =>
        rw [ha] at h
        simp only [Option.map_some'] at h
        cases h
        rcases List.mem_cons.mp hq with h1 | h1
        · subst h1
          exact List.mem_cons_self _ _
        · exact List.mem_cons_of_mem _ (ih ha h1)

/-- Rolling means of pointwise-nonnegative series are nonnegative. -/
theorem rollMean_fin_nonneg {f : ℕ → Val} {period i : ℕ}
    (hf : ∀ j q, f j = Val.fin q → 0 ≤ q) {g : ℚ}
    (h : rollMean f period i = Val.fin g) : 0 ≤ g := by
  unfold rollMean at h
  by_cases hc : period = 0 ∨ i + 1 < period
  · rw [if_pos hc] at h
    cases h
  · rw [if_neg hc] at h
    cases hall : allFin (windowVals f period i) with
    | none => rw [hall] at h; cases h
    | some qs =>
      rw [hall] at h
      cases h
      apply div_nonneg
      · apply List.sum_nonneg
        intro q hq
        have hmem := allFin_mem hall hq
        unfold windowVals at hmem
        rcases List.mem_map.mp hmem with ⟨j, _, hj⟩
        exact hf _ _ hj
      · exact Nat.cast_nonneg period

/-- Every finite value of the gains series is nonnegative. -/
theorem gain_fin_nonneg (closes : List Val) (j : ℕ) (q : ℚ)
    (h : gain closes j = Val.fin q) : 0 ≤ q := by
  unfold gain at h
  by_cases hlt : Val.ltB (delta closes j) (Val.fin 0) = true
  · rw [if_pos hlt] at h
    cases h
    exact le_refl 0
  · rw [if_neg hlt] at h
    rw [h] at hlt
    simp [Val.ltB] at hlt
    exact hlt

/-- Every finite value of the losses series is nonnegative. -/
theorem loss_fin_nonneg (closes : List Val) (j : ℕ) (q : ℚ)
    (h : loss closes j = Val.fin q) : 0 ≤ q := by
  unfold loss at h
  by_cases hlt : Val.ltB (Val.fin 0) (delta closes j) = true
  · rw [if_pos hlt] at h
    simp [Val.neg] at h
    linarith
  · rw [if_neg hlt] at h
    cases hd : delta closes j with
    | nan => rw [hd] at h; simp [Val.neg] at h
    | pinf => rw [hd] at h; simp [Val.neg] at h
    | minf => rw [hd] at h; simp [Val.neg] at h
    | fin a =>
      rw [hd] at h hlt
      simp [Val.neg] at h
      simp [Val.ltB] at hlt
      linarith

/-- Shape analysis of a division that produced a finite value. -/
theorem val_div_fin_cases {x y : Val} {v : ℚ} (h : Val.div x y = Val.fin v) :
    (∃ a b, x = Val.fin a ∧ y = Val.fin b ∧ b ≠ 0 ∧ v = a / b) ∨
    ((∃ a, x = Val.fin a) ∧ (y = Val.pinf ∨ y = Val.minf) ∧ v = 0) := by
  cases x with
  | nan => simp [Val.div] at h
  | pinf =>
    cases y with
    | nan => simp [Val.div] at h
    | pinf => simp [Val.div] at h
    | minf => simp [Val.div] at h
    | fin b =>
      simp only [Val.div] at h
      split at h <;> cases h
  | minf =>
    cases y with
    | nan => simp [Val.div] at h
    | pinf => simp [Val.div] at h
    | minf => simp [Val.div] at h
    | fin b =>
      simp only [Val.div] at h
      split at h <;> cases h
  | fin a =>
    cases y with
    | nan => simp [Val.div] at h
    | pinf =>
      refine Or.inr ⟨⟨a, rfl⟩, Or.inl rfl, ?_⟩
      simp [Val.div] at h
      linarith
    | minf =>
      refine Or.inr ⟨⟨a, rfl⟩, Or.inr rfl, ?_⟩
      simp [Val.div] at h
      linarith
    | fin b =>
      simp only [Val.div] at h
      by_cases hb : b = 0
      · rw [if_pos hb] at h
        rcases lt_trichotomy a 0 with h1 | h1 | h1
        · rw [if_neg (by linarith), if_pos h1] at h
          cases h
        · subst h1
          rw [if_neg (lt_irrefl 0), if_neg (lt_irrefl 0)] at h
          cases h
        · rw [if_pos h1] at h
          cases h
      · rw [if_neg hb] at h
        cases h
        exact Or.inl ⟨a, b, rfl, rfl, hb, rfl⟩

/-- Claim C10: every defined (finite) RSI value produced by
`calculate_rsi` lies in the closed interval `[0, 100]`. -/
theorem rsi_values_in_range (closes : List Val) (period i : ℕ) (r : ℚ)
    (h : calculate_rsi closes period i = Val.fin r) : 0 ≤ r ∧ r ≤ 100 := by
  unfold calculate_rsi at h
  cases hrs : rs closes period i with
  | nan =>
    rw [hrs] at h
    simp [Val.add, Val.div, Val.sub, Val.neg] at h
  | pinf =>
    rw [hrs] at h
    simp [Val.add, Val.div, Val.sub, Val.neg] at h
    constructor <;> linarith
  | minf =>
    rw [hrs] at h
    simp [Val.add, Val.div, Val.sub, Val.neg] at h
    constructor <;> linarith
  | fin v =>
    have hv : 0 ≤ v := by
      unfold rs at hrs
      rcases val_div_fin_cases hrs with ⟨a, b, hA, hL, hb, hv'⟩ | ⟨_, _, hv'⟩
      · have ha : 0 ≤ a :=
          rollMean_fin_nonneg (fun j q => gain_fin_nonneg closes j q) hA
        have hlq : 0 ≤ b :=
          rollMean_fin_nonneg (fun j q => loss_fin_nonneg closes j q) hL
        subst hv'
        exact div_nonneg ha hlq
      · subst hv'
        exact le_refl 0
    have h1 : (0 : ℚ) < 1 + v := by linarith
    rw [hrs] at h
    simp [Val.add, Val.div, Val.sub, Val.neg, ne_of_gt h1] at h
    have hpos : 0 < 100 / (1 + v) := by positivity
    have hle : 100 / (1 + v) ≤ 100 := by
      rw [div_le_iff h1]
      nlinarith
    constructor <;> linarith

/-- Witness for `rsi_values_in_range`: the series `1, 2, 1` at period 2
computes RSI 50, which lies in `[0, 100]`. -/
theorem rsi_values_in_range_witness :
    calculate_rsi [Val.fin 1, Val.fin 2, Val.fin 1] 2 2 = Val.fin 50 ∧
    (0 : ℚ) ≤ 50 ∧ (50 : ℚ) ≤ 100 :=
  ⟨by with_unfolding_all decide,
   (rsi_values_in_range [Val.fin 1, Val.fin 2, Val.fin 1] 2 2 50
     (by with_unfolding_all decide)).1,
   (rsi_values_in_range [Val.fin 1, Val.fin 2, Val.fin 1] 2 2 50
     (by with_unfolding_all decide)).2⟩

end CryptoBot
